import Mathlib

/-!
Verification of the catalog query service (go-hiring-challenge).

Shallow embedding conventions:
* The relational Catalog Store is a `List Models.Product`: the list order is the
  store's primary-key order, which is the order `Find` returns rows in.
  Each `Product` row carries its preloaded `Category` row (the row joined via
  `products.category_id = categories.id`) and its `Variants`; under the store's
  primary-key integrity the SQL join filter on `categories.code` coincides with
  a predicate on this embedded row.
* `shopspring/decimal` values are exact decimals; they embed as `Rat`
  (every decimal is a rational, comparisons are exact).
* Go's `(value, err)` multiple returns embed as tuples with an `Option`/`Except`
  error component, mirroring which zero values the Go code returns alongside
  an error.
* `int`/`int64` embed as `Int`.
The catalog HTTP handler embedded here is the revision that contains
`HandleGetDetails` and the `priceLessThan` validation (the package's test file
references both, so that revision is the one the tests compile against).
-/

namespace Models

/-- A product variant row: `name`, unique `sku`, and a price whose zero value
represents NULL/absent (price inheritance applies at read time). -/
structure Variant where
  name : String
  sku : String
  price : Rat
deriving DecidableEq, Repr

/-- A category row: unique `code` and human-readable `name`. -/
structure Category where
  code : String
  name : String
deriving DecidableEq, Repr

/-- A product row as returned by the store with `Category` and `Variants`
preloaded. -/
structure Product where
  code : String
  price : Rat
  category : Category
  variants : List Variant
deriving DecidableEq, Repr

/-- Filtering options for product queries (models.ProductFilters). -/
structure ProductFilters where
  offset : Int
  limit : Int
  categoryCode : String
  priceLessThan : Option Rat
deriving DecidableEq, Repr

/-- Domain errors of the models package (the `errors.New` values). -/
inductive RepoError where
  | invalidPagination
  | productNotFound
  | storeFailure (msg : String)
deriving DecidableEq, Repr

/-- The `Error()` string of a repository error (`errors.New` messages). -/
def RepoError.message : RepoError → String
  | .invalidPagination => "invalid pagination parameters"
  | .productNotFound => "product not found"
  | .storeFailure msg => msg

/-- Raw store-level (gorm) errors: `gorm.ErrRecordNotFound` or any other
driver/integrity failure carrying a message. -/
inductive GormErr where
  | recordNotFound
  | other (msg : String)
deriving DecidableEq, Repr

/-- The WHERE clause built by `GetProductsWithFilters`: the category JOIN
condition is added only when `CategoryCode` is non-empty, the price condition
`products.price < ?` only when `PriceLessThan` is non-nil. -/
def queryMatches (filters : ProductFilters) (p : Product) : Bool :=
  (if filters.categoryCode = "" then true
   else p.category.code == filters.categoryCode)
  &&
  (match filters.priceLessThan with
   | some q => decide (p.price < q)
   | none => true)

/-- `GetProductsWithFilters`: validates pagination, counts the filtered rows,
then fetches the page `OFFSET offset LIMIT limit` of the filtered rows.
Returns `(products, total, err)` as the Go triple does; on invalid pagination
the Go code returns `(nil, 0, ErrInvalidPagination)` without touching the db. -/
def GetProductsWithFilters (db : List Product) (filters : ProductFilters) :
    List Product × Int × Option RepoError :=
  if filters.offset < 0 ∨ filters.limit ≤ 0 then
    ([], 0, some RepoError.invalidPagination)
  else
    let matched := db.filter (queryMatches filters)
    let total : Int := matched.length
    let page := (matched.drop filters.offset.toNat).take filters.limit.toNat
    (page, total, none)

/-- `GetAllProducts`: validates pagination, counts all rows, returns the page
`OFFSET offset LIMIT limit` of all rows. -/
def GetAllProducts (db : List Product) (offset limit : Int) :
    List Product × Int × Option RepoError :=
  if offset < 0 ∨ limit ≤ 0 then
    ([], 0, some RepoError.invalidPagination)
  else
    ((db.drop offset.toNat).take limit.toNat, (db.length : Int), none)

/-- The gorm `First` call with `WHERE code = ?`: the first row (in primary-key
order) whose code matches, or `ErrRecordNotFound`. -/
def firstWhereCode (db : List Product) (code : String) : Except GormErr Product :=
  match db.find? (fun p => p.code == code) with
  | some p => Except.ok p
  | none => Except.error GormErr.recordNotFound

/-- The error-mapping block of `GetProductByCode`: `gorm.ErrRecordNotFound`
becomes `ErrProductNotFound` (checked with `errors.Is`); every other store
error is returned unchanged. -/
def mapStoreResult (res : Except GormErr Product) : Except RepoError Product :=
  match res with
  | .ok p => Except.ok p
  | .error GormErr.recordNotFound => Except.error RepoError.productNotFound
  | .error (GormErr.other msg) => Except.error (RepoError.storeFailure msg)

/-- `GetProductByCode`: look the product up by exact code, mapping the raw
store result through the error-translation block. -/
def GetProductByCode (db : List Product) (code : String) : Except RepoError Product :=
  mapStoreResult (firstWhereCode db code)

end Models

namespace Catalog

/-- Wire-shape category (catalog.Category). -/
structure Category where
  code : String
  name : String
deriving DecidableEq, Repr

/-- Wire-shape product of the list endpoint (catalog.Product). The Go struct
coerces the price to float64 via `InexactFloat64` at the JSON boundary; that
lossy projection is outside the core, so the exact decimal is kept here. -/
structure Product where
  code : String
  price : Rat
  category : Category
deriving DecidableEq, Repr

/-- List-endpoint response body (catalog.Response). -/
structure Response where
  products : List Product
  total : Int
deriving DecidableEq, Repr

/-- Wire-shape variant of the detail endpoint (catalog.VariantResponse),
price kept exact as above. -/
structure VariantResponse where
  name : String
  sku : String
  price : Rat
deriving DecidableEq, Repr

/-- Detail-endpoint response body (catalog.ProductDetailsResponse). -/
structure ProductDetailsResponse where
  code : String
  price : Rat
  category : Category
  variants : List VariantResponse
deriving DecidableEq, Repr

/-- An inbound list request's query parameters, as `r.URL.Query().Get` sees
them: the empty string stands for an absent parameter, exactly as `Get`
returns `""` for a missing key. -/
structure Request where
  offset : String
  limit : String
  category : String
  priceLessThan : String
deriving DecidableEq, Repr

/-- `r.URL.Query().Get(key)` for the four keys the handler reads. -/
def Request.get (r : Request) (key : String) : String :=
  if key = "offset" then r.offset
  else if key = "limit" then r.limit
  else if key = "category" then r.category
  else if key = "priceLessThan" then r.priceLessThan
  else ""

/-- Accumulator loop for a run of decimal digits. -/
def digitsToNat : List Char → Nat → Option Nat
  | [], acc => some acc
  | c :: rest, acc =>
      if c.isDigit then digitsToNat rest (acc * 10 + (c.toNat - 48))
      else none

/-- A non-empty all-digit run, as `strconv.ParseInt`/`big.Int.SetString`
require after the optional sign. -/
def parseNatDigits (cs : List Char) : Option Nat :=
  if cs.isEmpty then none else digitsToNat cs 0

/-- Base-10 signed integer syntax: optional single `+`/`-` sign followed by a
non-empty digit run (`strconv.ParseInt` / `big.Int.SetString` base 10). -/
def parseSignedDigits (cs : List Char) : Option Int :=
  match cs with
  | '+' :: rest => (parseNatDigits rest).map (fun n => (n : Int))
  | '-' :: rest => (parseNatDigits rest).map (fun n => -(n : Int))
  | _ => (parseNatDigits cs).map (fun n => (n : Int))

/-- `strconv.Atoi`: base-10 signed integer within the 64-bit int range. -/
def Atoi (s : String) : Option Int :=
  match parseSignedDigits s.data with
  | some v => if -(2 ^ 63) ≤ v ∧ v < 2 ^ 63 then some v else none
  | none => none

/-- `parseIntParam`: read the query parameter, and when it is non-empty and
`strconv.Atoi` accepts it return the parsed value; otherwise silently return
the default. -/
def parseIntParam (r : Request) (key : String) (defaultValue : Int) : Int :=
  let valueStr := r.get key
  if valueStr ≠ "" then
    match Atoi valueStr with
    | some value => value
    | none => defaultValue
  else defaultValue

/-- Split at the first `e`/`E` (Go's `strings.IndexAny(value, "Ee")`):
mantissa characters, and the exponent characters when a marker was found. -/
def splitAtExp : List Char → List Char × Option (List Char)
  | [] => ([], none)
  | c :: rest =>
      if c = 'e' ∨ c = 'E' then ([], some rest)
      else
        let (m, e) := splitAtExp rest
        (c :: m, e)

/-- Split the mantissa at its decimal point: `none` when there is more than
one `.` ("too many .s"); otherwise the integer-part characters and, when a
point is present, the fraction characters. -/
def splitAtDot : List Char → Option (List Char × Option (List Char))
  | [] => some ([], none)
  | c :: rest =>
      if c = '.' then
        if rest.contains '.' then none else some ([], some rest)
      else
        match splitAtDot rest with
        | none => none
        | some (ip, fp) => some (c :: ip, fp)

/-- The decimal value `m · 10^exp` as an exact rational. -/
def decimalOf (m : Int) (exp : Int) : Rat :=
  if 0 ≤ exp then (m : Rat) * (10 : Rat) ^ exp.toNat
  else (m : Rat) / (10 : Rat) ^ (-exp).toNat

/-- `decimal.NewFromString`: optional scientific-notation exponent after the
first `e`/`E`, at most one decimal point, a non-empty fraction when a point is
present ("fraction part missing"), and the remaining digits with an optional
leading sign. (The library's fixed-width range checks on the exponent are not
modelled; no claim depends on them.) -/
def NewFromString (value : String) : Option Rat :=
  let (mantissa, expPart) := splitAtExp value.data
  let expOpt : Option Int :=
    match expPart with
    | none => some 0
    | some ecs => parseSignedDigits ecs
  match expOpt with
  | none => none
  | some exp =>
    match splitAtDot mantissa with
    | none => none
    | some (intPart, fracPart) =>
      match fracPart with
      | none =>
        match parseSignedDigits intPart with
        | none => none
        | some m => some (decimalOf m exp)
      | some fp =>
        if fp.isEmpty then none
        else
          match parseSignedDigits (intPart ++ fp) with
          | none => none
          | some m => some (decimalOf m (exp - (fp.length : Int)))

/-- The limit normalisation statements of `HandleGet` (min 1, max 100). -/
def clampLimit (limit : Int) : Int :=
  let l := if limit < 1 then 1 else limit
  if l > 100 then 100 else l

/-- The parameter-parsing prefix of `HandleGet`, up to and including the
construction of `models.ProductFilters`: an error value is the 400 response
body sent before the repository is ever consulted. -/
def buildFilters (r : Request) : Except String Models.ProductFilters :=
  let offset := parseIntParam r "offset" 0
  let limit := clampLimit (parseIntParam r "limit" 10)
  let categoryCode := r.get "category"
  let priceStr := r.get "priceLessThan"
  if priceStr = "" then
    Except.ok ⟨offset, limit, categoryCode, none⟩
  else
    match NewFromString priceStr with
    | none => Except.error "Invalid priceLessThan format: must be a valid number"
    | some price =>
      if price < 0 then
        Except.error "Invalid priceLessThan: must be a positive number"
      else
        Except.ok ⟨offset, limit, categoryCode, some price⟩

/-- `mapProductsResponse`: project domain products to wire shape. -/
def mapProductsResponse (products : List Models.Product) (total : Int) : Response :=
  { products := products.map (fun p =>
      { code := p.code
        price := p.price
        category := { code := p.category.code, name := p.category.name } })
    total := total }

/-- Outcome of the list endpoint. -/
inductive HandlerResult where
  | ok (body : Response)
  | badRequest (msg : String)
  | internalError (msg : String)
deriving DecidableEq, Repr

/-- `HandleGet`: parse and validate the query parameters; on success query the
repository with the built filters and project the page, else return the 400
body; a repository error becomes a 500 body with the error's message. -/
def HandleGet (db : List Models.Product) (r : Request) : HandlerResult :=
  match buildFilters r with
  | .error msg => HandlerResult.badRequest msg
  | .ok filters =>
    let (products, total, err) := Models.GetProductsWithFilters db filters
    match err with
    | some e => HandlerResult.internalError e.message
    | none => HandlerResult.ok (mapProductsResponse products total)

/-- `mapProductDetailsResponse`: project a product to the detail wire shape,
substituting the parent product's price for a variant whose stored price is
zero (NULL in the db) — price inheritance at resolution time. -/
def mapProductDetailsResponse (product : Models.Product) : ProductDetailsResponse :=
  { code := product.code
    price := product.price
    category := { code := product.category.code, name := product.category.name }
    variants := product.variants.map (fun v =>
      let price := v.price
      let price := if price = 0 then product.price else price
      { name := v.name, sku := v.sku, price := price }) }

/-- Outcome of the detail endpoint. -/
inductive DetailsResult where
  | ok (body : ProductDetailsResponse)
  | badRequest (msg : String)
  | notFound (msg : String)
  | internalError (msg : String)
deriving DecidableEq, Repr

/-- `HandleGetDetails`: 400 on empty code; look the product up by code; map
`ErrProductNotFound` to a 404 body, any other repository error to a 500 body;
otherwise project the detail response. -/
def HandleGetDetails (db : List Models.Product) (code : String) : DetailsResult :=
  if code = "" then DetailsResult.badRequest "Product code is required"
  else
    match Models.GetProductByCode db code with
    | .error e =>
      if e = Models.RepoError.productNotFound then DetailsResult.notFound "Product not found"
      else DetailsResult.internalError "Internal server error"
    | .ok product => DetailsResult.ok (mapProductDetailsResponse product)

end Catalog

/-! ### Characterisation lemmas shared by the claim theorems -/

namespace Models

/-- Invalid pagination short-circuits `GetProductsWithFilters` to the error
triple, for any store contents. -/
theorem getProductsWithFilters_invalid (db : List Product) (filters : ProductFilters)
    (h : filters.offset < 0 ∨ filters.limit ≤ 0) :
    GetProductsWithFilters db filters = ([], 0, some RepoError.invalidPagination) := by
  unfold GetProductsWithFilters
  rw [if_pos h]

/-- With valid pagination, `GetProductsWithFilters` returns the
offset/limit window of the filtered rows together with their full count. -/
theorem getProductsWithFilters_valid (db : List Product) (filters : ProductFilters)
    (h1 : 0 ≤ filters.offset) (h2 : 0 < filters.limit) :
    GetProductsWithFilters db filters =
      (((db.filter (queryMatches filters)).drop filters.offset.toNat).take filters.limit.toNat,
       ((db.filter (queryMatches filters)).length : Int), none) := by
  unfold GetProductsWithFilters
  rw [if_neg (by omega)]

/-- Invalid pagination short-circuits `GetAllProducts` to the error triple. -/
theorem getAllProducts_invalid (db : List Product) (offset limit : Int)
    (h : offset < 0 ∨ limit ≤ 0) :
    GetAllProducts db offset limit = ([], 0, some RepoError.invalidPagination) := by
  unfold GetAllProducts
  rw [if_pos h]

/-- With valid pagination, `GetAllProducts` returns the window of all rows and
the total row count. -/
theorem getAllProducts_valid (db : List Product) (offset limit : Int)
    (h1 : 0 ≤ offset) (h2 : 0 < limit) :
    GetAllProducts db offset limit =
      ((db.drop offset.toNat).take limit.toNat, (db.length : Int), none) := by
  unfold GetAllProducts
  rw [if_neg (by omega)]

end Models

namespace Catalog

/-- `buildFilters` unfolded, with the query-parameter lookups reduced. -/
theorem buildFilters_eq (r : Request) :
    buildFilters r =
      if r.priceLessThan = "" then
        Except.ok ⟨parseIntParam r "offset" 0, clampLimit (parseIntParam r "limit" 10),
                   r.category, none⟩
      else
        match NewFromString r.priceLessThan with
        | none => Except.error "Invalid priceLessThan format: must be a valid number"
        | some price =>
          if price < 0 then
            Except.error "Invalid priceLessThan: must be a positive number"
          else
            Except.ok ⟨parseIntParam r "offset" 0, clampLimit (parseIntParam r "limit" 10),
                       r.category, some price⟩ := rfl

/-- A parameter that is absent or that `Atoi` refuses parses to the default. -/
theorem parseIntParam_default (r : Request) (key : String) (d : Int)
    (h : r.get key = "" ∨ Atoi (r.get key) = none) :
    parseIntParam r key d = d := by
  unfold parseIntParam
  rcases h with h | h
  · simp [h]
  · by_cases he : r.get key = ""
    · simp [he]
    · simp [he, h]

/-- `clampLimit` lands in `[1, 100]`, clamping each side. -/
theorem clampLimit_bounds (limit : Int) :
    1 ≤ clampLimit limit ∧ clampLimit limit ≤ 100 ∧
    (limit < 1 → clampLimit limit = 1) ∧ (100 < limit → clampLimit limit = 100) := by
  simp only [clampLimit]
  split_ifs <;> omega

/-- A parameter-validation failure is returned as the 400 body. -/
theorem handleGet_of_error (db : List Models.Product) (r : Request) (msg : String)
    (h : buildFilters r = Except.error msg) :
    HandleGet db r = HandlerResult.badRequest msg := by
  unfold HandleGet
  rw [h]

/-- `HandleGet` depends on the request only through the filters it builds. -/
theorem handleGet_congr (db : List Models.Product) {r r2 : Request}
    (h : buildFilters r = buildFilters r2) :
    HandleGet db r = HandleGet db r2 := by
  unfold HandleGet
  rw [h]

/-- `buildFilters` depends on the request only through the two parsed
pagination values, the category string, and the raw price string. -/
theorem buildFilters_congr {r r2 : Request}
    (ho : parseIntParam r "offset" 0 = parseIntParam r2 "offset" 0)
    (hl : parseIntParam r "limit" 10 = parseIntParam r2 "limit" 10)
    (hc : r.category = r2.category) (hp : r.priceLessThan = r2.priceLessThan) :
    buildFilters r = buildFilters r2 := by
  rw [buildFilters_eq, buildFilters_eq, ho, hl, hc, hp]

end Catalog

/-! ### Concrete fixtures used by the witnesses (the spec's running example:
`PROD001` at price 12.00 in `CLOTHING` with a zero-priced variant, `PROD002`
at price 8.00 in `SHOES`). -/

def sampleProduct : Models.Product :=
  ⟨"PROD001", 12, ⟨"CLOTHING", "Clothing"⟩, [⟨"Variant One", "V1", 0⟩, ⟨"Variant Two", "V2", 5⟩]⟩

def sampleDb : List Models.Product :=
  [sampleProduct, ⟨"PROD002", 8, ⟨"SHOES", "Shoes"⟩, []⟩]

/-! ### Claim theorems -/

/-- C1: every product in a page returned by `GetProductsWithFilters` satisfies
every supplied filter: with a non-empty `categoryCode` the product's category
code equals it exactly (case-sensitive), with a present `priceLessThan` the
product's price is strictly below it (exact decimal comparison), and both hold
simultaneously when both filters are supplied. -/
theorem c1_page_satisfies_filters
    (db : List Models.Product) (filters : Models.ProductFilters) (p : Models.Product)
    (hp : p ∈ (Models.GetProductsWithFilters db filters).1) :
    (filters.categoryCode ≠ "" → p.category.code = filters.categoryCode) ∧
    (∀ q : Rat, filters.priceLessThan = some q → p.price < q) := by
  by_cases hv : filters.offset < 0 ∨ filters.limit ≤ 0
  · rw [Models.getProductsWithFilters_invalid db filters hv] at hp
    simp at hp
  · push_neg at hv
    rw [Models.getProductsWithFilters_valid db filters hv.1 hv.2] at hp
    have hmem : p ∈ db.filter (Models.queryMatches filters) :=
      List.mem_of_mem_drop (List.mem_of_mem_take hp)
    have hq := (List.mem_filter.mp hmem).2
    unfold Models.queryMatches at hq
    rw [Bool.and_eq_true] at hq
    obtain ⟨h1, h2⟩ := hq
    constructor
    · intro hcc
      rw [if_neg hcc] at h1
      exact eq_of_beq h1
    · intro q hq2
      rw [hq2] at h2
      exact of_decide_eq_true h2

/-- C1 witness: on the sample store, the page for `category=CLOTHING` and
`priceLessThan=15` contains `PROD001`, whose category code and price satisfy
both filters. -/
theorem c1_page_satisfies_filters_witness :
    sampleProduct ∈ (Models.GetProductsWithFilters sampleDb ⟨0, 10, "CLOTHING", some 15⟩).1 ∧
    ((("CLOTHING" : String) ≠ "" → sampleProduct.category.code = "CLOTHING") ∧
     (∀ q : Rat, (some (15 : Rat) : Option Rat) = some q → sampleProduct.price < q)) :=
  ⟨by decide,
   c1_page_satisfies_filters sampleDb ⟨0, 10, "CLOTHING", some 15⟩ sampleProduct (by decide)⟩

/-- C2: invalid pagination (`offset < 0` or `limit ≤ 0`) makes both
`GetProductsWithFilters` and `GetAllProducts` fail with `ErrInvalidPagination`
and return no partial data (nil slice, zero total), independently of the store
contents (fail-fast before any store access); valid pagination never produces
`ErrInvalidPagination`. -/
theorem c2_pagination_fail_fast
    (db : List Models.Product) (filters : Models.ProductFilters) (offset limit : Int) :
    ((filters.offset < 0 ∨ filters.limit ≤ 0) →
      Models.GetProductsWithFilters db filters = ([], 0, some Models.RepoError.invalidPagination)) ∧
    (0 ≤ filters.offset → 0 < filters.limit →
      (Models.GetProductsWithFilters db filters).2.2 ≠ some Models.RepoError.invalidPagination) ∧
    ((offset < 0 ∨ limit ≤ 0) →
      Models.GetAllProducts db offset limit = ([], 0, some Models.RepoError.invalidPagination)) ∧
    (0 ≤ offset → 0 < limit →
      (Models.GetAllProducts db offset limit).2.2 ≠ some Models.RepoError.invalidPagination) := by
  refine ⟨fun h => Models.getProductsWithFilters_invalid db filters h,
          fun h1 h2 => ?_,
          fun h => Models.getAllProducts_invalid db offset limit h,
          fun h1 h2 => ?_⟩
  · rw [Models.getProductsWithFilters_valid db filters h1 h2]
    simp
  · rw [Models.getAllProducts_valid db offset limit h1 h2]
    simp

/-- C2 witness: on the sample store, a negative offset yields exactly the
`InvalidPagination` triple, a non-positive limit likewise, and the default
pagination yields no `InvalidPagination` error. -/
theorem c2_pagination_fail_fast_witness :
    Models.GetProductsWithFilters sampleDb ⟨-1, 10, "", none⟩ =
      ([], 0, some Models.RepoError.invalidPagination) ∧
    Models.GetAllProducts sampleDb 0 0 = ([], 0, some Models.RepoError.invalidPagination) ∧
    (Models.GetProductsWithFilters sampleDb ⟨0, 10, "", none⟩).2.2 ≠
      some Models.RepoError.invalidPagination :=
  ⟨(c2_pagination_fail_fast sampleDb ⟨-1, 10, "", none⟩ 0 0).1 (Or.inl (by decide)),
   (c2_pagination_fail_fast sampleDb ⟨-1, 10, "", none⟩ 0 0).2.2.1 (Or.inr (by decide)),
   (c2_pagination_fail_fast sampleDb ⟨0, 10, "", none⟩ 0 0).2.1 (by decide) (by decide)⟩

/-- C3: for valid pagination the returned `totalCount` is the number of rows
matching the filters before pagination; it is unchanged under any other valid
`offset`/`limit` with the same filters; and an `offset` at or beyond the match
count yields an empty page with that same (unchanged) `totalCount`. -/
theorem c3_totalCount_prepagination
    (db : List Models.Product) (filters : Models.ProductFilters)
    (hoff : 0 ≤ filters.offset) (hlim : 0 < filters.limit) :
    (Models.GetProductsWithFilters db filters).2.1 =
      ((db.filter (Models.queryMatches filters)).length : Int) ∧
    (∀ o l : Int, 0 ≤ o → 0 < l →
      (Models.GetProductsWithFilters db
          ⟨o, l, filters.categoryCode, filters.priceLessThan⟩).2.1 =
        (Models.GetProductsWithFilters db filters).2.1) ∧
    (((db.filter (Models.queryMatches filters)).length : Int) ≤ filters.offset →
      (Models.GetProductsWithFilters db filters).1 = []) := by
  rw [Models.getProductsWithFilters_valid db filters hoff hlim]
  refine ⟨rfl, fun o l ho hl => ?_, fun hbig => ?_⟩
  · rw [Models.getProductsWithFilters_valid db ⟨o, l, filters.categoryCode, filters.priceLessThan⟩ ho hl]
    rfl
  · have hlen : (db.filter (Models.queryMatches filters)).length ≤ filters.offset.toNat := by
      omega
    simp only
    rw [List.drop_eq_nil_of_le hlen, List.take_nil]

/-- C3 witness: over the 2-product sample store with no filters, `offset = 5`
yields an empty page while the total stays 2; the total equals the
pre-pagination match count and is unchanged between `offset 0` and `offset 5`. -/
theorem c3_totalCount_prepagination_witness :
    (Models.GetProductsWithFilters sampleDb ⟨5, 10, "", none⟩).2.1 =
      ((sampleDb.filter (Models.queryMatches ⟨5, 10, "", none⟩)).length : Int) ∧
    (Models.GetProductsWithFilters sampleDb ⟨0, 3, "", none⟩).2.1 =
      (Models.GetProductsWithFilters sampleDb ⟨5, 10, "", none⟩).2.1 ∧
    (Models.GetProductsWithFilters sampleDb ⟨5, 10, "", none⟩).1 = [] :=
  ⟨(c3_totalCount_prepagination sampleDb ⟨5, 10, "", none⟩ (by decide) (by decide)).1,
   (c3_totalCount_prepagination sampleDb ⟨5, 10, "", none⟩ (by decide) (by decide)).2.1
      0 3 (by decide) (by decide),
   (c3_totalCount_prepagination sampleDb ⟨5, 10, "", none⟩ (by decide) (by decide)).2.2
      (by decide)⟩

/-- C6: with valid pagination, the page returned by `GetProductsWithFilters`
contains at most `limit` products. -/
theorem c6_page_at_most_limit
    (db : List Models.Product) (filters : Models.ProductFilters)
    (hoff : 0 ≤ filters.offset) (hlim : 0 < filters.limit) :
    ((Models.GetProductsWithFilters db filters).1.length : Int) ≤ filters.limit := by
  rw [Models.getProductsWithFilters_valid db filters hoff hlim]
  simp only [List.length_take]
  omega

/-- C6 witness: the sample store's unfiltered page with `limit = 1` has at
most one product. -/
theorem c6_page_at_most_limit_witness :
    ((Models.GetProductsWithFilters sampleDb ⟨0, 1, "", none⟩).1.length : Int) ≤ 1 :=
  c6_page_at_most_limit sampleDb ⟨0, 1, "", none⟩ (by decide) (by decide)

/-- C4: in the detail response, every variant is annotated with an effective
price: the parent product's price when the variant's stored price is zero
(NULL in the db), and the variant's own price unchanged otherwise; name and
SKU are carried over untouched. -/
theorem c4_variant_price_inheritance
    (product : Models.Product) (i : Nat) (h : i < product.variants.length) :
    ∃ hlen : i < (Catalog.mapProductDetailsResponse product).variants.length,
      ((Catalog.mapProductDetailsResponse product).variants.get ⟨i, hlen⟩).price =
        (if (product.variants.get ⟨i, h⟩).price = 0 then product.price
         else (product.variants.get ⟨i, h⟩).price) ∧
      ((Catalog.mapProductDetailsResponse product).variants.get ⟨i, hlen⟩).sku =
        (product.variants.get ⟨i, h⟩).sku ∧
      ((Catalog.mapProductDetailsResponse product).variants.get ⟨i, hlen⟩).name =
        (product.variants.get ⟨i, h⟩).name := by
  have hlen : i < (Catalog.mapProductDetailsResponse product).variants.length := by
    simpa [Catalog.mapProductDetailsResponse] using h
  refine ⟨hlen, ?_, ?_, ?_⟩ <;>
    simp [Catalog.mapProductDetailsResponse]

/-- C4 witness: `PROD001` (price 12) has a zero-priced first variant, whose
effective price in the detail response is 12. -/
theorem c4_variant_price_inheritance_witness :
    0 < sampleProduct.variants.length ∧
    ∃ hlen : 0 < (Catalog.mapProductDetailsResponse sampleProduct).variants.length,
      ((Catalog.mapProductDetailsResponse sampleProduct).variants.get ⟨0, hlen⟩).price = 12 := by
  refine ⟨by decide, ?_⟩
  obtain ⟨hlen, hprice, -, -⟩ := c4_variant_price_inheritance sampleProduct 0 (by decide)
  exact ⟨hlen, hprice.trans (by decide)⟩

/-- C5: when no stored product has the requested code, `GetProductByCode`
fails with `ErrProductNotFound`; any other store-level error is propagated
unchanged as a distinct failure, and only `gorm.ErrRecordNotFound` is ever
translated into `ErrProductNotFound`. -/
theorem c5_not_found_distinguishable
    (db : List Models.Product) (code : String) (msg : String)
    (hnone : ∀ p ∈ db, p.code ≠ code) :
    Models.GetProductByCode db code = Except.error Models.RepoError.productNotFound ∧
    Models.mapStoreResult (Except.error (Models.GormErr.other msg)) =
      Except.error (Models.RepoError.storeFailure msg) ∧
    (∀ e : Models.GormErr,
      Models.mapStoreResult (Except.error e) = Except.error Models.RepoError.productNotFound →
      e = Models.GormErr.recordNotFound) := by
  refine ⟨?_, rfl, ?_⟩
  · have hf : db.find? (fun p => p.code == code) = none := by
      rw [List.find?_eq_none]
      intro p hp
      simpa using hnone p hp
    unfold Models.GetProductByCode Models.firstWhereCode
    rw [hf]
    rfl
  · intro e he
    cases e with
    | recordNotFound => rfl
    | other m => simp [Models.mapStoreResult] at he

/-- C5 witness: the sample store has no product coded `DOES-NOT-EXIST`, the
lookup fails with `ErrProductNotFound`, and a raw connection error surfaces
as a distinct store failure. -/
theorem c5_not_found_distinguishable_witness :
    (∀ p ∈ sampleDb, p.code ≠ "DOES-NOT-EXIST") ∧
    Models.GetProductByCode sampleDb "DOES-NOT-EXIST" =
      Except.error Models.RepoError.productNotFound ∧
    Models.mapStoreResult (Except.error (Models.GormErr.other "connection refused")) =
      Except.error (Models.RepoError.storeFailure "connection refused") :=
  ⟨by decide,
   (c5_not_found_distinguishable sampleDb "DOES-NOT-EXIST" "connection refused" (by decide)).1,
   (c5_not_found_distinguishable sampleDb "DOES-NOT-EXIST" "connection refused" (by decide)).2.1⟩

/-- C8: both core operations are pure functions of the stored record set and
their arguments: equal stores and equal inputs give identical list results
(page and total) and identical detail results. -/
theorem c8_deterministic
    (db db2 : List Models.Product) (filters filters2 : Models.ProductFilters)
    (code code2 : String) (hdb : db = db2) (hf : filters = filters2) (hc : code = code2) :
    Models.GetProductsWithFilters db filters = Models.GetProductsWithFilters db2 filters2 ∧
    Models.GetProductByCode db code = Models.GetProductByCode db2 code2 := by
  subst hdb
  subst hf
  subst hc
  exact ⟨rfl, rfl⟩

/-- C8 witness: two identical calls on the sample store agree, for the list
operation and for the detail lookup. -/
theorem c8_deterministic_witness :
    Models.GetProductsWithFilters sampleDb ⟨0, 10, "CLOTHING", none⟩ =
      Models.GetProductsWithFilters sampleDb ⟨0, 10, "CLOTHING", none⟩ ∧
    Models.GetProductByCode sampleDb "PROD001" = Models.GetProductByCode sampleDb "PROD001" :=
  c8_deterministic sampleDb sampleDb ⟨0, 10, "CLOTHING", none⟩ ⟨0, 10, "CLOTHING", none⟩
    "PROD001" "PROD001" rfl rfl rfl

/-- C7: at the boundary, a non-empty `priceLessThan` string that is malformed
or parses to a negative decimal makes `HandleGet` answer the 400 body produced
while building the filters, for every store — the Query Engine is never
consulted with such an input. -/
theorem c7_price_filter_rejected_at_boundary
    (db : List Models.Product) (r : Catalog.Request)
    (hne : r.priceLessThan ≠ "")
    (hbad : Catalog.NewFromString r.priceLessThan = none ∨
            ∃ q : Rat, Catalog.NewFromString r.priceLessThan = some q ∧ q < 0) :
    ∃ msg, Catalog.buildFilters r = Except.error msg ∧
           Catalog.HandleGet db r = Catalog.HandlerResult.badRequest msg := by
  rcases hbad with hnone | ⟨q, hq, hneg⟩
  · have hb : Catalog.buildFilters r =
        Except.error "Invalid priceLessThan format: must be a valid number" := by
      rw [Catalog.buildFilters_eq, if_neg hne, hnone]
    exact ⟨_, hb, Catalog.handleGet_of_error db r _ hb⟩
  · have hb : Catalog.buildFilters r =
        Except.error "Invalid priceLessThan: must be a positive number" := by
      rw [Catalog.buildFilters_eq, if_neg hne, hq]
      exact if_pos hneg
    exact ⟨_, hb, Catalog.handleGet_of_error db r _ hb⟩

/-- C7 witness: the request `priceLessThan=abc` is answered with a 400 body
on the sample store without reaching the repository. -/
theorem c7_price_filter_rejected_at_boundary_witness :
    (Catalog.Request.mk "" "" "" "abc").priceLessThan ≠ "" ∧
    ∃ msg, Catalog.buildFilters ⟨"", "", "", "abc"⟩ = Except.error msg ∧
           Catalog.HandleGet sampleDb ⟨"", "", "", "abc"⟩ =
             Catalog.HandlerResult.badRequest msg :=
  ⟨by decide,
   c7_price_filter_rejected_at_boundary sampleDb ⟨"", "", "", "abc"⟩ (by decide)
     (Or.inl (by decide))⟩

/-- Inversion shared by the boundary claims: a successfully built filter set
carries exactly the clamped limit. -/
theorem buildFilters_ok_limit {r : Catalog.Request} {filters : Models.ProductFilters}
    (hok : Catalog.buildFilters r = Except.ok filters) :
    filters.limit = Catalog.clampLimit (Catalog.parseIntParam r "limit" 10) := by
  rw [Catalog.buildFilters_eq] at hok
  split at hok
  · injection hok with h
    rw [← h]
  · split at hok
    · exact absurd hok (by simp)
    · split at hok
      · exact absurd hok (by simp)
      · injection hok with h
        rw [← h]

/-- C9: every filter set the boundary hands to the Query Engine has its limit
clamped into `[1, 100]`: the built limit is the clamp of the parsed limit,
it always lies between 1 and 100, a parsed limit below 1 becomes 1, and a
parsed limit above 100 becomes 100. -/
theorem c9_limit_clamped
    (r : Catalog.Request) (filters : Models.ProductFilters)
    (hok : Catalog.buildFilters r = Except.ok filters) :
    filters.limit = Catalog.clampLimit (Catalog.parseIntParam r "limit" 10) ∧
    1 ≤ filters.limit ∧ filters.limit ≤ 100 ∧
    (Catalog.parseIntParam r "limit" 10 < 1 → filters.limit = 1) ∧
    (100 < Catalog.parseIntParam r "limit" 10 → filters.limit = 100) := by
  have heq := buildFilters_ok_limit hok
  obtain ⟨hb1, hb2, hb3, hb4⟩ := Catalog.clampLimit_bounds (Catalog.parseIntParam r "limit" 10)
  refine ⟨heq, ?_, ?_, fun hlt => ?_, fun hgt => ?_⟩
  · rw [heq]; exact hb1
  · rw [heq]; exact hb2
  · rw [heq]; exact hb3 hlt
  · rw [heq]; exact hb4 hgt

/-- C9 witness: `limit=250` builds a filter set whose limit is clamped to 100,
inside `[1, 100]`. -/
theorem c9_limit_clamped_witness :
    Catalog.buildFilters ⟨"", "250", "", ""⟩ = Except.ok ⟨0, 100, "", none⟩ ∧
    1 ≤ (Models.ProductFilters.mk 0 100 "" none).limit ∧
    (Models.ProductFilters.mk 0 100 "" none).limit ≤ 100 := by
  have h := c9_limit_clamped ⟨"", "250", "", ""⟩ ⟨0, 100, "", none⟩ (by rfl)
  exact ⟨by rfl, h.2.1, h.2.2.1⟩

/-- C10: an absent or non-integer `offset` or `limit` parameter is never
rejected: `parseIntParam` silently substitutes the default, the response is
the one for the same request with that parameter absent, and with both
parameters malformed (and no price filter) the handler serves the
default-paginated page (offset 0, limit 10) rather than an error response. -/
theorem c10_malformed_pagination_defaults
    (db : List Models.Product) (r : Catalog.Request) (key : String) (d : Int) :
    ((r.get key = "" ∨ Catalog.Atoi (r.get key) = none) →
      Catalog.parseIntParam r key d = d) ∧
    ((r.offset = "" ∨ Catalog.Atoi r.offset = none) →
      Catalog.HandleGet db r =
        Catalog.HandleGet db ⟨"", r.limit, r.category, r.priceLessThan⟩) ∧
    ((r.limit = "" ∨ Catalog.Atoi r.limit = none) →
      Catalog.HandleGet db r =
        Catalog.HandleGet db ⟨r.offset, "", r.category, r.priceLessThan⟩) ∧
    ((r.offset = "" ∨ Catalog.Atoi r.offset = none) →
     (r.limit = "" ∨ Catalog.Atoi r.limit = none) →
     r.priceLessThan = "" →
      Catalog.buildFilters r = Except.ok ⟨0, 10, r.category, none⟩ ∧
      ∃ body, Catalog.HandleGet db r = Catalog.HandlerResult.ok body) := by
  refine ⟨fun h => Catalog.parseIntParam_default r key d h, fun hoff => ?_, fun hlim => ?_,
          fun hoff hlim hpe => ?_⟩
  · apply Catalog.handleGet_congr
    apply Catalog.buildFilters_congr
    · rw [Catalog.parseIntParam_default r "offset" 0 hoff,
          Catalog.parseIntParam_default ⟨"", r.limit, r.category, r.priceLessThan⟩ "offset" 0
            (Or.inl rfl)]
    · rfl
    · rfl
    · rfl
  · apply Catalog.handleGet_congr
    apply Catalog.buildFilters_congr
    · rfl
    · rw [Catalog.parseIntParam_default r "limit" 10 hlim,
          Catalog.parseIntParam_default ⟨r.offset, "", r.category, r.priceLessThan⟩ "limit" 10
            (Or.inl rfl)]
    · rfl
    · rfl
  · have hb : Catalog.buildFilters r = Except.ok ⟨0, 10, r.category, none⟩ := by
      rw [Catalog.buildFilters_eq, if_pos hpe,
          Catalog.parseIntParam_default r "offset" 0 hoff,
          Catalog.parseIntParam_default r "limit" 10 hlim]
      rfl
    refine ⟨hb, ?_⟩
    refine ⟨Catalog.mapProductsResponse
      (Models.GetProductsWithFilters db ⟨0, 10, r.category, none⟩).1
      (Models.GetProductsWithFilters db ⟨0, 10, r.category, none⟩).2.1, ?_⟩
    unfold Catalog.HandleGet
    rw [hb]
    simp only [Models.getProductsWithFilters_valid db ⟨0, 10, r.category, none⟩
      (by norm_num) (by norm_num)]

/-- C10 witness: the request `offset=xyz&limit=nope` is not rejected: both
parameters fall back to their defaults, the response equals the one with the
offset absent, and the handler serves the default page. -/
theorem c10_malformed_pagination_defaults_witness :
    Catalog.parseIntParam ⟨"xyz", "nope", "", ""⟩ "offset" 0 = 0 ∧
    Catalog.HandleGet sampleDb ⟨"xyz", "nope", "", ""⟩ =
      Catalog.HandleGet sampleDb ⟨"", "nope", "", ""⟩ ∧
    Catalog.buildFilters ⟨"xyz", "nope", "", ""⟩ = Except.ok ⟨0, 10, "", none⟩ ∧
    ∃ body, Catalog.HandleGet sampleDb ⟨"xyz", "nope", "", ""⟩ =
      Catalog.HandlerResult.ok body := by
  have h := c10_malformed_pagination_defaults sampleDb ⟨"xyz", "nope", "", ""⟩ "offset" 0
  refine ⟨h.1 (Or.inr (by decide)), h.2.1 (Or.inr (by decide)), ?_, ?_⟩
  · exact (h.2.2.2 (Or.inr (by decide)) (Or.inr (by decide)) rfl).1
  · exact (h.2.2.2 (Or.inr (by decide)) (Or.inr (by decide)) rfl).2
